import Mathlib

/-!
Verification development for the Shopify to eShopaid synchronization adapter.

The JavaScript sources are shallowly embedded as pure Lean functions:
  - token-manager.js  : TokenManager (credential cache) as explicit state passing
    over TMState; the network issuance call is abstracted as an AcqResp value
    describing the wire outcome of the axios POST (transport error, string
    body, or parsed JSON body).
  - order-service.js  : transformShopifyOrder, mapPaymentGateway,
    getStateGSTCode, parseOrderResponse, parseStatusResponse.
  - inventory-service.js : parseInventoryResponse, normalizeItems.
  - webhook-handlers.js  : handleOrderCreate, handleOrderUpdate, with the
    network side effects of the inner service calls passed in as explicit
    Except values (thrown JS error = Except.error, returned value = Except.ok).

JavaScript conventions captured explicitly:
  - absent / undefined / null fields are Option.none;
  - the JS expression a OR b on string-or-undefined values treats the empty
    string as falsy (helper jsOr);
  - machine times are modelled as Int milliseconds (JS numbers are exact
    integers in this range);
  - parseFloat results are Option Rat, with none standing for NaN (an absent
    or unparseable numeric string); the JS pattern parseFloat(x) OR 0 is
    Option.getD 0;
  - thrown JS errors are Except.error carrying the message (JsErr carries
    the built-in error class where a claim depends on it).
-/

/-- Credential cache state of TokenManager: the token string and its expiry
time in ms, each null at construction. -/
structure TMState where
  token : Option String
  tokenExpiry : Option Int
deriving Repr, DecidableEq

/-- JS truthiness for a string-or-undefined value: undefined and the empty
string are falsy. -/
def jsTruthyStr : Option String → Bool
  | none => false
  | some s => s != ""

/-- JS truthiness for a number-or-undefined value: undefined and 0 are falsy. -/
def jsTruthyInt : Option Int → Bool
  | none => false
  | some n => n != 0

/-- config.eshopaid.tokenRefreshBuffer (5 minutes) in milliseconds, as computed
in isTokenValid: tokenRefreshBuffer * 60 * 1000. -/
def tokenRefreshBufferMs : Int := 5 * 60 * 1000

/-- config.eshopaid.tokenLifetimeMinutes (30 minutes) in milliseconds, as
computed in generateToken: tokenLifetimeMinutes * 60 * 1000. -/
def tokenLifetimeMs : Int := 30 * 60 * 1000

/-- TokenManager.isTokenValid: false when token or tokenExpiry is falsy,
otherwise Date.now() < tokenExpiry - bufferMs. Pure by construction: it reads
the state and the clock and returns a Bool, with no state change and no
acquisition. -/
def isTokenValid (s : TMState) (now : Int) : Bool :=
  if !(jsTruthyStr s.token) || !(jsTruthyInt s.tokenExpiry) then false
  else decide (now < s.tokenExpiry.getD 0 - tokenRefreshBufferMs)

/-- JSON issuance response envelope: data.Response with Result and
Access_Token fields, each possibly absent. -/
structure TokenEnvelope where
  Result : Option String := none
  Access_Token : Option String := none
deriving Repr, DecidableEq

/-- Outcome of the axios POST to the token endpoint, as seen by generateToken:
either axios threw (transport / HTTP error), or the body was a string (the
XML fallback format), or it was parsed JSON whose Response field may be
absent. -/
inductive AcqResp where
  | transportErr (msg : String)
  | strBody (body : String)
  | jsonBody (env : Option TokenEnvelope)
deriving Repr, DecidableEq

/-- The regex match data.match over Access_Token tags: everything after the
first opening tag up to the next closing tag. (The JS regex dot does not match
newlines; tokens are single-line values, so this is the same extraction.) -/
def xmlExtract (s : String) : Option String :=
  match s.splitOn "<Access_Token>" with
  | [] => none
  | [_] => none
  | _ :: restParts =>
    match (String.intercalate "<Access_Token>" restParts).splitOn "</Access_Token>" with
    | [] => none
    | [_] => none
    | tok :: _ => some tok

/-- The accessToken local of generateToken: extracted from the XML string body
or read from data.Response.Access_Token; undefined (none) in every other
case. -/
def acqToken : AcqResp → Option String
  | .transportErr _ => none
  | .strBody body => xmlExtract body
  | .jsonBody env => env.bind (fun e => e.Access_Token)

/-- Tail of generateToken after accessToken is computed: if (accessToken) is
truthy, store the token, set the expiry to now plus the 30 minute lifetime and
return it; otherwise throw "Failed to extract token from response" leaving the
state untouched. -/
def tokenFromExtract (s : TMState) (now : Int) (tok : Option String) :
    Except String String × TMState :=
  match tok with
  | some t =>
    if t = "" then (.error "Failed to extract token from response", s)
    else (.ok t, ⟨some t, some (now + tokenLifetimeMs)⟩)
  | none => (.error "Failed to extract token from response", s)

/-- TokenManager.generateToken: the catch block rethrows the axios transport
error unchanged; otherwise the token is extracted from the body and stored.
On every failure path the state fields are not assigned, so the cache is
returned unchanged. -/
def generateToken (s : TMState) (now : Int) (resp : AcqResp) :
    Except String String × TMState :=
  match resp with
  | .transportErr m => (.error m, s)
  | r => tokenFromExtract s now (acqToken r)

/-- Result of TokenManager.getToken: the returned-or-thrown value, the cache
state afterwards, and whether generateToken was invoked at all. -/
structure GetTokenOut where
  res : Except String String
  st : TMState
  attempted : Bool
deriving Repr

/-- TokenManager.getToken: return this.token directly when isTokenValid,
else delegate to generateToken. -/
def getToken (s : TMState) (now : Int) (resp : AcqResp) : GetTokenOut :=
  if isTokenValid s now then
    { res := .ok (s.token.getD ""), st := s, attempted := false }
  else
    let g := generateToken s now resp
    { res := g.1, st := g.2, attempted := true }

/-- TokenManager constructor: both fields null. -/
def tmInitialState : TMState := ⟨none, none⟩

/-- TokenManager.clearToken: assigns null to both fields whatever the
previous state was. -/
def clearToken (_s : TMState) : TMState := ⟨none, none⟩

/-- The both-null-or-both-set cache invariant of claim C10. -/
def tmInv (s : TMState) : Prop := s.token = none ↔ s.tokenExpiry = none

/-- The JS expression a OR b for a string-or-undefined left operand: the left
value unless it is undefined or the empty string. -/
def jsOr (x : Option String) (d : String) : String :=
  match x with
  | some s => if s = "" then d else s
  | none => d

/-- JS template-literal stringification of a possibly undefined number,
as in ORD followed by order.id: undefined prints as "undefined". -/
def jsNumStr : Option Nat → String
  | some n => toString n
  | none => "undefined"

/-- A calendar date already parsed from an ISO timestamp string. An absent or
unparseable created_at is Option.none on the order, standing for the JS
Invalid Date whose toISOString() throws a RangeError. -/
structure CalDate where
  year : Nat
  month : Nat
  day : Nat
deriving Repr, DecidableEq

/-- Two-digit zero padding for month and day components. -/
def pad2 (n : Nat) : String :=
  if n < 10 then "0" ++ toString n else toString n

/-- The YYYYMMDD string computed by toISOString().slice(0,10).replace(-,''). -/
def fmtYYYYMMDD (d : CalDate) : String :=
  toString d.year ++ pad2 d.month ++ pad2 d.day

/-- The YYYY-MM-DD string computed by toISOString().slice(0,10). -/
def fmtISODate (d : CalDate) : String :=
  toString d.year ++ "-" ++ pad2 d.month ++ "-" ++ pad2 d.day

/-- Shopify address shape (shipping_address / billing_address), all fields
possibly absent. -/
structure SAddress where
  first_name : Option String := none
  last_name : Option String := none
  phone : Option String := none
  address1 : Option String := none
  address2 : Option String := none
  city : Option String := none
  province : Option String := none
  zip : Option String := none
deriving Repr, DecidableEq

/-- Shopify customer shape as read by the order transform. -/
structure SCustomer where
  first_name : Option String := none
  last_name : Option String := none
  phone : Option String := none
  email : Option String := none
deriving Repr, DecidableEq

/-- Shopify order line item. price and total_discount are numeric strings on
the wire; they are modelled as the Option Rat their parseFloat yields. -/
structure SLineItem where
  sku : Option String := none
  variant_id : Option Nat := none
  quantity : Nat := 0
  price : Option Rat := none
  total_discount : Option Rat := none
  name : Option String := none
deriving Repr, DecidableEq

/-- Shopify shipping line: parseFloat(line.price OR 0) and line.title. -/
structure SShippingLine where
  price : Option Rat := none
  title : Option String := none
deriving Repr, DecidableEq

/-- Shopify order object, restricted to the fields the adapter reads. -/
structure ShopifyOrder where
  id : Option Nat := none
  name : Option String := none
  email : Option String := none
  customer : Option SCustomer := none
  shipping_address : Option SAddress := none
  billing_address : Option SAddress := none
  created_at : Option CalDate := none
  line_items : Option (List SLineItem) := none
  shipping_lines : Option (List SShippingLine) := none
  gateway : Option String := none
  payment_gateway_names : Option (List String) := none
  checkout_token : Option String := none
  total_price : Option Rat := none
  note : Option String := none
  cancelled_at : Option String := none
  fulfillment_status : Option String := none
  financial_status : Option String := none
deriving Repr, DecidableEq

/-- A thrown JS error, carrying the built-in class and message. The adapter
defines no error class of its own (in particular no MalformedInputError). -/
inductive JsErr where
  | typeError (msg : String)
  | rangeError (msg : String)
deriving Repr, DecidableEq

/-- Message of a thrown JS error, as read by error.message in the webhook
handlers. -/
def JsErr.message : JsErr → String
  | .typeError m => m
  | .rangeError m => m

/-- eShopaid order line item produced by the transform. -/
structure ERPItem where
  LineNumber : Nat
  ItemCode : Option String
  Quantity : Nat
  Rate : Option Rat
  DiscountAmount : Rat
  LineRemarks : Option String
deriving Repr, DecidableEq

/-- One source line item mapped at 1-based position n: ItemCode is item.sku
falling back to item.variant_id stringified. -/
def transformItem (n : Nat) (item : SLineItem) : ERPItem :=
  { LineNumber := n
  , ItemCode := if jsTruthyStr item.sku then item.sku else item.variant_id.map toString
  , Quantity := item.quantity
  , Rate := item.price
  , DiscountAmount := item.total_discount.getD 0
  , LineRemarks := item.name }

/-- order.line_items.map with the running 1-based index made explicit: the
JS callback receives (item, index) and stores index + 1 as LineNumber, so the
first call of transformItemsFrom is at n = 1. -/
def transformItemsFrom (n : Nat) : List SLineItem → List ERPItem
  | [] => []
  | item :: rest => transformItem n item :: transformItemsFrom (n + 1) rest

/-- The gatewayMap lookup table of mapPaymentGateway. -/
def gatewayMap : List (String × String) :=
  [("shopify_payments", "CreditCard"), ("paypal", "PayPal"),
   ("razorpay", "OnlinePayment"), ("paytm", "OnlinePayment"),
   ("cod", "Cash"), ("cash_on_delivery", "Cash"), ("manual", "Cash")]

/-- First-match lookup in a JS object literal used as a string map. -/
def lookupStr (m : List (String × String)) (k : String) : Option String :=
  (m.find? (fun p => p.1 == k)).map (fun p => p.2)

/-- OrderService.mapPaymentGateway: lower-case lookup in gatewayMap with
OnlinePayment as the default for unknown or absent gateways. -/
def mapPaymentGateway (gateway : Option String) : String :=
  match gateway with
  | none => "OnlinePayment"
  | some g => (lookupStr gatewayMap g.toLower).getD "OnlinePayment"

/-- The gstCodes lookup table of getStateGSTCode. -/
def gstCodes : List (String × String) :=
  [("jammu and kashmir", "01"), ("himachal pradesh", "02"), ("punjab", "03"),
   ("chandigarh", "04"), ("uttarakhand", "05"), ("haryana", "06"),
   ("delhi", "07"), ("rajasthan", "08"), ("uttar pradesh", "09"),
   ("bihar", "10"), ("sikkim", "11"), ("arunachal pradesh", "12"),
   ("nagaland", "13"), ("manipur", "14"), ("mizoram", "15"),
   ("tripura", "16"), ("meghalaya", "17"), ("assam", "18"),
   ("west bengal", "19"), ("jharkhand", "20"), ("odisha", "21"),
   ("chattisgarh", "22"), ("madhya pradesh", "23"), ("gujarat", "24"),
   ("dadra and nagar haveli", "26"), ("maharashtra", "27"), ("karnataka", "29"),
   ("goa", "30"), ("lakshadweep", "31"), ("kerala", "32"),
   ("tamil nadu", "33"), ("puducherry", "34"), ("andaman and nicobar", "35"),
   ("telangana", "36"), ("andhra pradesh", "37"), ("ladakh", "38")]

/-- OrderService.getStateGSTCode: lower-case lookup with empty-string default
for unmapped or absent state names. -/
def getStateGSTCode (stateName : Option String) : String :=
  match stateName with
  | none => ""
  | some s => (lookupStr gstCodes s.toLower).getD ""

/-- config.eshopaid.storeLocation default. -/
def storeLocation : String := "HO"

/-- config.eshopaid.sourceChannel default. -/
def sourceChannel : String := "Shopify"

/-- eShopaid order customer block. -/
structure ERPCustomer where
  TitleName : String
  FirstName : String
  MiddleName : String
  LastName : String
  Gender : String
  MobileNumber : String
  EmailID : String
  CustomerAddressLine1 : String
  CustomerAddressLine2 : String
  CustomerAddressLine3 : String
  CustomerCityName : String
  CustomerStateName : String
  CustomerStateGSTCode : String
  Pincode : String
deriving Repr, DecidableEq

/-- eShopaid order header block. -/
structure ERPHeader where
  OrderDate : String
  OrderNumber : String
  OrderLocation : String
  CustomerCode : String
  DeliveryAddressLine1 : String
  DeliveryAddressLine2 : String
  DeliveryAddressLine3 : String
  DeliveryCityName : String
  DeliveryStateName : String
  DeliveryStateGSTCode : String
  DeliveryPincode : String
  TotalOrderValue : Option Rat
  ExpectedDeliveryDate : String
  OrderRemarks : String
  SourceChannel : String
deriving Repr, DecidableEq

/-- One aggregated charge entry (the single Shipping charge). -/
structure ERPCharge where
  ChargeDescription : String
  ChargeValue : Rat
  ChargeReference : String
deriving Repr, DecidableEq

/-- The OtherCharges.Charge wrapper; the transform emits an empty object
(none here) when the shipping sum is not positive. -/
structure ERPCharges where
  Charge : List ERPCharge
deriving Repr, DecidableEq

/-- One payment entry. -/
structure ERPPayment where
  PaymentMode : String
  PaymentValue : Option Rat
  ModeType : String
  PaymentReference : String
deriving Repr, DecidableEq

/-- The Payments.Payment wrapper. -/
structure ERPPayments where
  Payment : List ERPPayment
deriving Repr, DecidableEq

/-- The Items.Item wrapper. -/
structure ERPItems where
  Item : List ERPItem
deriving Repr, DecidableEq

/-- Body of the Order key produced by transformShopifyOrder. -/
structure ERPOrder where
  Customer : ERPCustomer
  Header : ERPHeader
  Items : ERPItems
  OtherCharges : Option ERPCharges
  Payments : ERPPayments
deriving Repr, DecidableEq

/-- The outermost object returned by transformShopifyOrder. -/
structure OrderMsg where
  Order : ERPOrder
deriving Repr, DecidableEq

/-- The non-throwing tail of transformShopifyOrder, once created_at has
produced a calendar date and line_items is present. Field by field from the
source. -/
def transformOk (order : ShopifyOrder) (date : CalDate)
    (lineItems : List SLineItem) : OrderMsg :=
  let customer := order.customer.getD {}
  let shippingAddress := (order.shipping_address.orElse
    (fun _ => order.billing_address)).getD {}
  let billingAddress := order.billing_address.getD {}
  let formattedDate := fmtYYYYMMDD date
  let items := transformItemsFrom 1 lineItems
  let shippingCharge : Rat :=
    match order.shipping_lines with
    | none => 0
    | some ls => ls.foldl (fun sum line => sum + line.price.getD 0) 0
  let otherCharges : Option ERPCharges :=
    if shippingCharge > 0 then
      some { Charge := [
        { ChargeDescription := "Shipping"
        , ChargeValue := shippingCharge
        , ChargeReference :=
            jsOr ((order.shipping_lines.bind List.head?).bind
              (fun l => l.title)) "Standard Shipping" }] }
    else none
  let payments : ERPPayments :=
    { Payment := [
      { PaymentMode := mapPaymentGateway order.gateway
      , PaymentValue := order.total_price
      , ModeType := jsOr (order.payment_gateway_names.bind List.head?) ""
      , PaymentReference := jsOr order.checkout_token "" }] }
  let stateGSTCode := getStateGSTCode shippingAddress.province
  { Order :=
    { Customer :=
      { TitleName := ""
      , FirstName := jsOr customer.first_name (jsOr shippingAddress.first_name "Guest")
      , MiddleName := ""
      , LastName := jsOr customer.last_name (jsOr shippingAddress.last_name "")
      , Gender := ""
      , MobileNumber := jsOr shippingAddress.phone (jsOr customer.phone "")
      , EmailID := jsOr customer.email (jsOr order.email "")
      , CustomerAddressLine1 := jsOr billingAddress.address1 ""
      , CustomerAddressLine2 := jsOr billingAddress.address2 ""
      , CustomerAddressLine3 := ""
      , CustomerCityName := jsOr billingAddress.city ""
      , CustomerStateName := jsOr billingAddress.province ""
      , CustomerStateGSTCode := stateGSTCode
      , Pincode := jsOr billingAddress.zip "" }
    , Header :=
      { OrderDate := formattedDate
      , OrderNumber := jsOr order.name ("ORD" ++ jsNumStr order.id)
      , OrderLocation := storeLocation
      , CustomerCode := ""
      , DeliveryAddressLine1 := jsOr shippingAddress.address1 ""
      , DeliveryAddressLine2 := jsOr shippingAddress.address2 ""
      , DeliveryAddressLine3 := ""
      , DeliveryCityName := jsOr shippingAddress.city ""
      , DeliveryStateName := jsOr shippingAddress.province ""
      , DeliveryStateGSTCode := stateGSTCode
      , DeliveryPincode := jsOr shippingAddress.zip ""
      , TotalOrderValue := order.total_price
      , ExpectedDeliveryDate := ""
      , OrderRemarks := jsOr order.note ""
      , SourceChannel := sourceChannel }
    , Items := { Item := items }
    , OtherCharges := otherCharges
    , Payments := payments } }

/-- OrderService.transformShopifyOrder. The two throwing sites, in source
evaluation order: new Date(order.created_at).toISOString() raises a RangeError
when created_at is absent or unparseable, and order.line_items.map raises a
TypeError when line_items is absent. Everything else substitutes defaults. -/
def transformShopifyOrder (order : ShopifyOrder) : Except JsErr OrderMsg :=
  match order.created_at with
  | none => .error (.rangeError "Invalid time value")
  | some date =>
    match order.line_items with
    | none => .error (.typeError "Cannot read properties of undefined (reading 'map')")
    | some lineItems => .ok (transformOk order date lineItems)

/-- A JSON value that is either a single object or an array of such objects,
as the ERP emits for Inventory and Items.Item. -/
inductive OneOrMany (α : Type) where
  | one (a : α)
  | many (l : List α)
deriving Repr, DecidableEq

/-- One raw inventory item from the ERP wire response; numeric fields are the
Option Rat that parseFloat yields (none for absent or unparseable). -/
structure WItem where
  ProductCode : Option String := none
  EANCode : Option String := none
  ItemCode : Option String := none
  ItemName : Option String := none
  MRP : Option Rat := none
  Stock : Option Rat := none
  SalesPrice : Option Rat := none
  TaxRate : Option Rat := none
  LastModifiedOn : Option String := none
  SaleUnit : Option String := none
  PerUnitSalesPrice : Option Rat := none
deriving Repr, DecidableEq

/-- The Items wrapper of one wire location; the Item field may be absent. -/
structure WItemsWrap where
  Item : Option (OneOrMany WItem) := none
deriving Repr, DecidableEq

/-- One wire location entry of the Inventory field; Items may be absent. -/
structure InvLoc where
  Location : Option String := none
  Items : Option WItemsWrap := none
deriving Repr, DecidableEq

/-- The Data object of a wire envelope, restricted to the keys the parsers
read. -/
structure WireData where
  TargetRefID : Option String := none
  CustomerCode : Option String := none
  OrderStatusUpdate : Option String := none
  Inventory : Option (OneOrMany InvLoc) := none
deriving Repr, DecidableEq

/-- The Response envelope of an ERP wire response. -/
structure WireEnvelope where
  Result : Option String := none
  StatusMessage : Option String := none
  StatusReference : Option String := none
  Data : Option WireData := none
  FailureReason : Option String := none
deriving Repr, DecidableEq

/-- A well-formed (JSON object) ERP wire response body: the Response key may
be absent, which is the malformed-body case of the parsers. -/
structure Wire where
  Response : Option WireEnvelope := none
deriving Repr, DecidableEq

/-- The JS expression StatusReference OR Data: a string left operand is taken
unless falsy (absent or empty), else the object right operand. -/
def jsOrData (a : Option String) (b : Option WireData) :
    Option (String ⊕ WireData) :=
  match a with
  | some s => if s = "" then b.map Sum.inr else some (Sum.inl s)
  | none => b.map Sum.inr

/-- Result of OrderService.parseOrderResponse. -/
structure ParsedOrder where
  success : Bool
  message : Option String := none
  data : Option (String ⊕ WireData) := none
  error : Option String := none
deriving Repr, DecidableEq

/-- OrderService.parseOrderResponse: map a present envelope, with the
"Invalid response format" fallback otherwise. Total by construction: no
throw for any well-formed wire response. -/
def parseOrderResponse (w : Wire) : ParsedOrder :=
  match w.Response with
  | some resp =>
    { success := resp.Result == some "SUCCESS"
    , message := resp.StatusMessage
    , data := jsOrData resp.StatusReference resp.Data
    , error := resp.FailureReason }
  | none => { success := false, error := some "Invalid response format" }

/-- Result of OrderService.parseStatusResponse. -/
structure ParsedStatus where
  success : Bool
  data : Option String := none
  error : Option String := none
deriving Repr, DecidableEq

/-- OrderService.parseStatusResponse. -/
def parseStatusResponse (w : Wire) : ParsedStatus :=
  match w.Response with
  | some resp =>
    { success := resp.Result == some "SUCCESS"
    , data := resp.Data.bind (fun d => d.OrderStatusUpdate)
    , error := resp.FailureReason }
  | none => { success := false, error := some "Invalid response format" }

/-- result.data?.TargetRefID as read by the webhook handlers: undefined when
data is absent or a string. -/
def dataTargetRef (d : Option (String ⊕ WireData)) : Option String :=
  match d with
  | some (Sum.inr wd) => wd.TargetRefID
  | _ => none

/-- One normalized inventory item, from InventoryService.normalizeItems:
String(item.EANCode) stringifies undefined as "undefined", numeric fields get
the parseFloat OR 0 default. -/
structure NItem where
  productCode : Option String
  eanCode : String
  itemCode : Option String
  itemName : Option String
  mrp : Rat
  stock : Rat
  salesPrice : Rat
  taxRate : Rat
  lastModified : Option String
  saleUnit : Option String
  perUnitPrice : Rat
deriving Repr, DecidableEq

/-- JS String() stringification of a string-or-undefined value. -/
def jsString : Option String → String
  | some s => s
  | none => "undefined"

/-- The per-item mapping inside InventoryService.normalizeItems. -/
def normalizeItem (item : WItem) : NItem :=
  { productCode := item.ProductCode
  , eanCode := jsString item.EANCode
  , itemCode := item.ItemCode
  , itemName := item.ItemName
  , mrp := item.MRP.getD 0
  , stock := item.Stock.getD 0
  , salesPrice := item.SalesPrice.getD 0
  , taxRate := item.TaxRate.getD 0
  , lastModified := item.LastModifiedOn
  , saleUnit := item.SaleUnit
  , perUnitPrice := item.PerUnitSalesPrice.getD 0 }

/-- InventoryService.normalizeItems: absent input gives [], a single object
is wrapped into a one-element array, an array maps element-wise. -/
def normalizeItems : Option (OneOrMany WItem) → List NItem
  | none => []
  | some (.one i) => [normalizeItem i]
  | some (.many l) => l.map normalizeItem

/-- One normalized location entry of parseInventoryResponse. -/
structure NLoc where
  location : Option String
  items : List NItem
deriving Repr, DecidableEq

/-- The per-location mapping of parseInventoryResponse: Location copied
as-is, loc.Items?.Item fed to normalizeItems. -/
def normalizeLoc (loc : InvLoc) : NLoc :=
  { location := loc.Location
  , items := normalizeItems (loc.Items.bind (fun w => w.Item)) }

/-- Result object of InventoryService.parseInventoryResponse, with its
initial values success false, empty list, zero count, null error. -/
structure ParsedInventory where
  success : Bool
  inventoryByLocation : List NLoc
  totalItems : Nat
  error : Option String
deriving Repr, DecidableEq

/-- InventoryService.parseInventoryResponse: on a present envelope with
Result SUCCESS, the Inventory field is normalized (array element-wise, single
object as a one-element list, absent as empty) and totalItems summed; on a
non-success envelope the error is FailureReason OR "Unknown error"; without
an envelope every initial field is returned unchanged (error stays null). -/
def parseInventoryResponse (w : Wire) : ParsedInventory :=
  match w.Response with
  | none => { success := false, inventoryByLocation := [], totalItems := 0, error := none }
  | some resp =>
    if resp.Result == some "SUCCESS" then
      let locs : List NLoc :=
        match resp.Data.bind (fun d => d.Inventory) with
        | some (.many ls) => ls.map normalizeLoc
        | some (.one loc) => [normalizeLoc loc]
        | none => []
      { success := true
      , inventoryByLocation := locs
      , totalItems := locs.foldl (fun sum loc => sum + loc.items.length) 0
      , error := none }
    else
      { success := false, inventoryByLocation := [], totalItems := 0
      , error := some (jsOr resp.FailureReason "Unknown error") }

/-- Parsed result of CustomerService.parseResponse, the value
syncFromShopify resolves with (a business rejection is success false here,
not a thrown error). -/
structure CustParsed where
  success : Bool
  customerCode : Option String := none
  error : Option String := none
deriving Repr, DecidableEq

/-- The aggregated outcome object returned by the webhook handlers; keys the
JS object does not carry are none. -/
structure WebhookOut where
  success : Bool
  orderId : Option Nat := none
  eshopaidRef : Option String := none
  status : Option String := none
  error : Option String := none
deriving Repr, DecidableEq

/-- WebhookHandlers.handleOrderCreate with the two network effects passed
explicitly: custEff is the outcome of customerService.syncFromShopify (only
reached when order.customer is present; a thrown error is caught by the inner
try, a returned rejection value is discarded, so neither alters control flow),
and reqEff is the outcome of the CreateSalesOrder wire exchange inside
createSalesOrder. The Bool reports whether that wire exchange was reached
(the transform throwing prevents it). -/
def handleOrderCreate (order : ShopifyOrder) (custEff : Except String CustParsed)
    (reqEff : Except String Wire) : WebhookOut × Bool :=
  let _ignored := if order.customer.isSome then some custEff else none
  match transformShopifyOrder order with
  | .error e =>
    ({ success := false, orderId := order.id, error := some e.message }, false)
  | .ok _orderData =>
    match reqEff with
    | .error m =>
      ({ success := false, orderId := order.id, error := some m }, true)
    | .ok w =>
      let result := parseOrderResponse w
      if result.success then
        ({ success := true, orderId := order.id
         , eshopaidRef := dataTargetRef result.data }, true)
      else
        ({ success := false, orderId := order.id, error := result.error }, true)

/-- The status decision chain at the top of WebhookHandlers.handleOrderUpdate:
cancelled_at truthy wins, then fulfillment_status fulfilled, then partial,
then financial_status paid, else null. -/
def orderStatus (order : ShopifyOrder) : Option String :=
  if jsTruthyStr order.cancelled_at then some "CANCELLED"
  else if order.fulfillment_status == some "fulfilled" then some "DELIVERED"
  else if order.fulfillment_status == some "partial" then some "PARTIALLY_DELIVERED"
  else if order.financial_status == some "paid" then some "PAID"
  else none

/-- WebhookHandlers.handleOrderUpdate with the SetOrderStatus wire exchange
passed explicitly; the Bool reports whether that Gateway call was reached.
When no status applies the handler returns the NO_UPDATE_NEEDED outcome
without touching the Gateway; when one applies, new Date(order.created_at)
may still throw before the call (created_at absent), otherwise the parsed
status response is folded into the outcome. -/
def handleOrderUpdate (order : ShopifyOrder) (reqEff : Except String Wire) :
    WebhookOut × Bool :=
  match orderStatus order with
  | some st =>
    match order.created_at with
    | none =>
      ({ success := false, orderId := order.id, error := some "Invalid time value" }, false)
    | some _ =>
      match reqEff with
      | .error m =>
        ({ success := false, orderId := order.id, error := some m }, true)
      | .ok w =>
        let result := parseStatusResponse w
        ({ success := result.success, orderId := order.id
         , status := some st, error := result.error }, true)
  | none =>
    ({ success := true, orderId := order.id, status := some "NO_UPDATE_NEEDED" }, false)

/-- A failed customer-sync step, in either of its two forms: the call threw
(transport or credential fault), or it resolved with a business-rejection
value whose success flag is false. -/
def custSyncFailed (e : Except String CustParsed) : Prop :=
  match e with
  | .error _ => True
  | .ok v => v.success = false

/-- Helper: every failure path of the token-storing tail leaves the cache
state unchanged. -/
theorem tokenFromExtract_error_state (s : TMState) (now : Int) (tok : Option String)
    (m : String) (h : (tokenFromExtract s now tok).1 = .error m) :
    (tokenFromExtract s now tok).2 = s := by
  match tok with
  | none => rfl
  | some t =>
    by_cases ht : t = ""
    · simp [tokenFromExtract, ht]
    · simp [tokenFromExtract, ht] at h

/-- Helper: the token-storing tail preserves the both-null-or-both-set
invariant. -/
theorem tokenFromExtract_inv (s : TMState) (now : Int) (tok : Option String)
    (h : tmInv s) : tmInv (tokenFromExtract s now tok).2 := by
  match tok with
  | none => exact h
  | some t =>
    by_cases ht : t = ""
    · simpa [tokenFromExtract, ht] using h
    · simp [tokenFromExtract, ht, tmInv]

/-- Helper: an invalid cache stays invalid as the clock advances. -/
theorem isTokenValid_false_mono (s : TMState) (n1 n2 : Int)
    (h : isTokenValid s n1 = false) (hle : n1 ≤ n2) : isTokenValid s n2 = false := by
  unfold isTokenValid at h ⊢
  by_cases hc : (!jsTruthyStr s.token || !jsTruthyInt s.tokenExpiry) = true
  · simp [hc]
  · simp [hc] at h ⊢
    omega

/-- Helper: every failure path of generateToken leaves the cache state
unchanged. -/
theorem generateToken_error_state (s : TMState) (now : Int) (resp : AcqResp)
    (m : String) (h : (generateToken s now resp).1 = .error m) :
    (generateToken s now resp).2 = s := by
  match resp with
  | .transportErr msg => rfl
  | .strBody b => exact tokenFromExtract_error_state s now _ m h
  | .jsonBody e => exact tokenFromExtract_error_state s now _ m h

/-- Claim C2: isTokenValid is true exactly when the cache is populated and
the current time is strictly below expiry minus the refresh buffer; at the
boundary, expiry minus buffer minus one is still valid and expiry minus
buffer is not. The check is a pure predicate of the cache state and the
clock (its Lean type carries no state change and it never reaches
generateToken). The hypotheses t nonempty and e positive restrict to the
states generateToken can actually store. -/
theorem isTokenValid_iff_spec :
    ∀ (t : String) (e now : Int), t ≠ "" → 0 < e →
      ((isTokenValid ⟨some t, some e⟩ now = true ↔ now < e - tokenRefreshBufferMs)
       ∧ isTokenValid ⟨none, none⟩ now = false
       ∧ isTokenValid ⟨some t, some e⟩ (e - tokenRefreshBufferMs - 1) = true
       ∧ isTokenValid ⟨some t, some e⟩ (e - tokenRefreshBufferMs) = false) := by
  intro t e now ht he
  have htb : jsTruthyStr (some t) = true := by simp [jsTruthyStr, ht]
  have heb : jsTruthyInt (some e) = true := by
    simp [jsTruthyInt]
    omega
  refine ⟨?_, ?_, ?_, ?_⟩
  · simp [isTokenValid, htb, heb]
  · simp [isTokenValid, jsTruthyStr]
  · simp [isTokenValid, htb, heb]
  · simp [isTokenValid, htb, heb]

/-- Witness for C2 at a concrete populated cache. -/
theorem isTokenValid_iff_spec_witness :
    ((isTokenValid ⟨some "tok", some 1000000⟩ 0 = true ↔ (0 : Int) < 1000000 - tokenRefreshBufferMs)
     ∧ isTokenValid ⟨none, none⟩ (0 : Int) = false
     ∧ isTokenValid ⟨some "tok", some 1000000⟩ ((1000000 : Int) - tokenRefreshBufferMs - 1) = true
     ∧ isTokenValid ⟨some "tok", some 1000000⟩ ((1000000 : Int) - tokenRefreshBufferMs) = false) :=
  isTokenValid_iff_spec "tok" 1000000 0 (by decide) (by decide)

/-- Counterexample for claim C3: a transport failure of generateToken during
a refresh of an already-populated (expired) cache propagates the error yet
leaves the stale token in place, so the cache is not left empty as claimed. -/
theorem generateToken_failure_leaves_cache_cex :
    (generateToken ⟨some "staleTok", some 1000000⟩ 2000000 (.transportErr "socket hang up")).1
        = .error "socket hang up"
    ∧ (generateToken ⟨some "staleTok", some 1000000⟩ 2000000 (.transportErr "socket hang up")).2
        = ⟨some "staleTok", some 1000000⟩
    ∧ (⟨some "staleTok", some 1000000⟩ : TMState) ≠ (⟨none, none⟩ : TMState) :=
  ⟨rfl, rfl, by decide⟩

/-- Amended claim C3: a failed acquisition attempt (transport error,
malformed issuance response, or missing token field) propagates the error
and leaves the cache unchanged rather than empty; since a cache that was
invalid when acquisition was triggered stays invalid as time advances, the
next getToken call attempts acquisition again instead of reusing the cached
state. -/
theorem generateToken_failure_preserves_retry :
    ∀ (s : TMState) (now1 now2 : Int) (resp resp2 : AcqResp) (m : String),
      ((generateToken s now1 resp).1 = .error m → (generateToken s now1 resp).2 = s)
      ∧ (isTokenValid s now1 = false → now1 ≤ now2 →
          (getToken s now2 resp2).attempted = true) := by
  intro s now1 now2 resp resp2 m
  constructor
  · exact generateToken_error_state s now1 resp m
  · intro hinv hle
    have h2 : isTokenValid s now2 = false := isTokenValid_false_mono s now1 now2 hinv hle
    simp [getToken, h2]

/-- Witness for the amended C3 at a concrete empty cache and failing
acquisition. -/
theorem generateToken_failure_preserves_retry_witness :
    (generateToken ⟨none, none⟩ 0 (.transportErr "boom")).2 = ⟨none, none⟩
    ∧ (getToken ⟨none, none⟩ 7 (.transportErr "boom")).attempted = true :=
  ⟨(generateToken_failure_preserves_retry ⟨none, none⟩ 0 7 (.transportErr "boom")
      (.transportErr "boom") "boom").1 rfl,
   (generateToken_failure_preserves_retry ⟨none, none⟩ 0 7 (.transportErr "boom")
      (.transportErr "boom") "boom").2 (by decide) (by decide)⟩

/-- Claim C6: while the cached credential is valid, getToken returns exactly
the cached token without attempting acquisition and without touching the
state; when the cache is absent or invalid, it runs acquisition and, on a
successful issuance response carrying a nonempty token, replaces both cache
fields and returns the new token. -/
theorem getToken_cache_contract :
    ∀ (s : TMState) (now : Int) (resp : AcqResp) (tok : String) (env : TokenEnvelope),
      (s.token = some tok → isTokenValid s now = true →
        getToken s now resp = ⟨.ok tok, s, false⟩)
      ∧ (isTokenValid s now = false → env.Access_Token = some tok → tok ≠ "" →
          getToken s now (.jsonBody (some env)) =
            ⟨.ok tok, ⟨some tok, some (now + tokenLifetimeMs)⟩, true⟩) := by
  intro s now resp tok env
  constructor
  · intro hs hv
    simp [getToken, hv, hs]
  · intro hinv ha htok
    simp [getToken, hinv, generateToken, acqToken, ha, tokenFromExtract, htok]

/-- Witness for C6: a valid cache is reused untouched, an empty cache is
replaced by the freshly issued token. -/
theorem getToken_cache_contract_witness :
    getToken ⟨some "tok", some 1000000⟩ 0 (.transportErr "unused") =
      ⟨.ok "tok", ⟨some "tok", some 1000000⟩, false⟩
    ∧ getToken ⟨none, none⟩ 5 (.jsonBody (some ⟨some "SUCCESS", some "fresh"⟩)) =
        ⟨.ok "fresh", ⟨some "fresh", some (5 + tokenLifetimeMs)⟩, true⟩ :=
  ⟨(getToken_cache_contract ⟨some "tok", some 1000000⟩ 0 (.transportErr "unused") "tok"
      ⟨none, none⟩).1 rfl (by decide),
   (getToken_cache_contract ⟨none, none⟩ 5 (.transportErr "unused") "fresh"
      ⟨some "SUCCESS", some "fresh"⟩).2 (by decide) rfl (by decide)⟩

/-- Claim C10: the token and its expiry are both null or both set after the
constructor, after generateToken (successful or failed), after getToken, and
after clearToken. -/
theorem token_cache_invariant :
    tmInv tmInitialState
    ∧ (∀ (s : TMState) (now : Int) (resp : AcqResp),
        tmInv s → tmInv (generateToken s now resp).2)
    ∧ (∀ (s : TMState) (now : Int) (resp : AcqResp),
        tmInv s → tmInv (getToken s now resp).st)
    ∧ (∀ s : TMState, tmInv (clearToken s)) := by
  have hgen : ∀ (s : TMState) (now : Int) (resp : AcqResp),
      tmInv s → tmInv (generateToken s now resp).2 := by
    intro s now resp h
    match resp with
    | .transportErr m => exact h
    | .strBody b => exact tokenFromExtract_inv s now _ h
    | .jsonBody e => exact tokenFromExtract_inv s now _ h
  refine ⟨by simp [tmInv, tmInitialState], hgen, ?_, by simp [tmInv, clearToken]⟩
  intro s now resp h
  by_cases hv : isTokenValid s now = true
  · simpa [getToken, hv] using h
  · simp only [Bool.not_eq_true] at hv
    simpa [getToken, hv] using hgen s now resp h

/-- Witness for C10 at a concrete populated cache and a successful
acquisition. -/
theorem token_cache_invariant_witness :
    tmInv (generateToken ⟨none, none⟩ 0 (.jsonBody (some ⟨some "SUCCESS", some "fresh"⟩))).2
    ∧ tmInv (getToken ⟨some "tok", some 1000000⟩ 0 (.transportErr "unused")).st :=
  ⟨(token_cache_invariant.2.1 ⟨none, none⟩ 0 (.jsonBody (some ⟨some "SUCCESS", some "fresh"⟩))
      (by simp [tmInv])),
   (token_cache_invariant.2.2.1 ⟨some "tok", some 1000000⟩ 0 (.transportErr "unused")
      (by simp [tmInv]))⟩

/-- Helper: the line-item mapping started at index n numbers its output
n, n+1, ... regardless of the items themselves. -/
theorem transformItemsFrom_map_lineNumber (l : List SLineItem) :
    ∀ n, (transformItemsFrom n l).map ERPItem.LineNumber = List.range' n l.length := by
  induction l with
  | nil => intro n; simp [transformItemsFrom]
  | cons a t ih =>
    intro n
    simp [transformItemsFrom, transformItem, List.range'_succ, ih]

/-- Claim C1: whenever the customer-sync step of handleOrderCreate fails,
either as a thrown fault or as a business-rejection value, but the order
transform succeeds and the CreateSalesOrder wire response parses as success,
the handler still reaches the order-create Gateway call and returns the
aggregated outcome success true with no top-level error. -/
theorem handleOrderCreate_customer_failure_tolerated :
    ∀ (order : ShopifyOrder) (custEff : Except String CustParsed) (w : Wire) (r : OrderMsg),
      order.customer ≠ none →
      custSyncFailed custEff →
      transformShopifyOrder order = .ok r →
      (parseOrderResponse w).success = true →
      (handleOrderCreate order custEff (.ok w)).1.success = true
      ∧ (handleOrderCreate order custEff (.ok w)).1.error = none
      ∧ (handleOrderCreate order custEff (.ok w)).2 = true := by
  intro order custEff w r _hcust _hfail htrans hsucc
  simp [handleOrderCreate, htrans, hsucc]

/-- Witness for C1: a concrete order whose customer-sync call throws a
business-rejection fault while the order-create response reports SUCCESS. -/
theorem handleOrderCreate_customer_failure_tolerated_witness :
    (handleOrderCreate
        { customer := some {}, created_at := some ⟨2024, 1, 2⟩, line_items := some [], id := some 3 }
        (.error "BusinessRejection: customer could not be created")
        (.ok ⟨some { Result := some "SUCCESS" }⟩)).1.success = true
    ∧ (handleOrderCreate
        { customer := some {}, created_at := some ⟨2024, 1, 2⟩, line_items := some [], id := some 3 }
        (.error "BusinessRejection: customer could not be created")
        (.ok ⟨some { Result := some "SUCCESS" }⟩)).1.error = none
    ∧ (handleOrderCreate
        { customer := some {}, created_at := some ⟨2024, 1, 2⟩, line_items := some [], id := some 3 }
        (.error "BusinessRejection: customer could not be created")
        (.ok ⟨some { Result := some "SUCCESS" }⟩)).2 = true :=
  handleOrderCreate_customer_failure_tolerated
    { customer := some {}, created_at := some ⟨2024, 1, 2⟩, line_items := some [], id := some 3 }
    (.error "BusinessRejection: customer could not be created")
    ⟨some { Result := some "SUCCESS" }⟩
    (transformOk { customer := some {}, created_at := some ⟨2024, 1, 2⟩, line_items := some [], id := some 3 } ⟨2024, 1, 2⟩ [])
    (by simp) trivial rfl rfl

/-- Claim C5: status resolution for an update event is the pure priority
decision cancelled over fulfilled over partial over paid, and when no flag
applies the handler returns the successful NO_UPDATE_NEEDED outcome without
issuing the Gateway call. -/
theorem handleOrderUpdate_status_priority :
    ∀ (order : ShopifyOrder) (reqEff : Except String Wire),
      (jsTruthyStr order.cancelled_at = true → orderStatus order = some "CANCELLED")
      ∧ (jsTruthyStr order.cancelled_at = false →
          order.fulfillment_status = some "fulfilled" →
          orderStatus order = some "DELIVERED")
      ∧ (jsTruthyStr order.cancelled_at = false →
          order.fulfillment_status = some "partial" →
          orderStatus order = some "PARTIALLY_DELIVERED")
      ∧ (jsTruthyStr order.cancelled_at = false →
          order.fulfillment_status ≠ some "fulfilled" →
          order.fulfillment_status ≠ some "partial" →
          order.financial_status = some "paid" →
          orderStatus order = some "PAID")
      ∧ (orderStatus order = none →
          handleOrderUpdate order reqEff =
            ({ success := true, orderId := order.id, status := some "NO_UPDATE_NEEDED" }, false)) := by
  intro order reqEff
  refine ⟨?_, ?_, ?_, ?_, ?_⟩
  · intro hc; simp [orderStatus, hc]
  · intro hc hf; simp [orderStatus, hc, hf]
  · intro hc hf; simp [orderStatus, hc, hf]
  · intro hc hf hp hfin; simp [orderStatus, hc, hf, hp, hfin]
  · intro hn; simp [handleOrderUpdate, hn]

/-- Witness for C5: the spec scenario cancelled_at set together with
fulfillment_status fulfilled resolves to CANCELLED, and an event with no
applicable flag yields the successful no-update outcome with no call. -/
theorem handleOrderUpdate_status_priority_witness :
    orderStatus { cancelled_at := some "2024-01-03T10:00:00Z"
                , fulfillment_status := some "fulfilled", id := some 7 } = some "CANCELLED"
    ∧ handleOrderUpdate { id := some 9, financial_status := some "pending" } (.ok ⟨none⟩) =
        ({ success := true, orderId := some 9, status := some "NO_UPDATE_NEEDED" }, false) :=
  ⟨(handleOrderUpdate_status_priority
      { cancelled_at := some "2024-01-03T10:00:00Z"
      , fulfillment_status := some "fulfilled", id := some 7 } (.ok ⟨none⟩)).1 (by decide),
   (handleOrderUpdate_status_priority
      { id := some 9, financial_status := some "pending" } (.ok ⟨none⟩)).2.2.2.2 (by decide)⟩

/-- Counterexample for claim C7: an order that has line items and a
destination identifier but an unparseable created_at makes the transformer
throw — a built-in RangeError, not a MalformedInputError naming a missing
required field — so the transformer does not fail only on the claimed
required structural fields. -/
theorem transform_fails_on_missing_date_cex :
    transformShopifyOrder
        { name := some "1001", id := some 5, created_at := none
        , line_items := some [{ sku := some "SKU1", quantity := 1 }] }
      = .error (.rangeError "Invalid time value")
    ∧ ({ name := some "1001", id := some 5, created_at := none
       , line_items := some [{ sku := some "SKU1", quantity := 1 }] } : ShopifyOrder).line_items
        ≠ none
    ∧ ({ name := some "1001", id := some 5, created_at := none
       , line_items := some [{ sku := some "SKU1", quantity := 1 }] } : ShopifyOrder).name
        ≠ none :=
  ⟨rfl, by decide, by decide⟩

/-- Amended claim C7: the transformer substitutes defaults for every missing
optional field and succeeds whenever created_at parses to a date and
line_items is present; it throws a built-in error — not a MalformedInputError
naming the field — when created_at is absent or unparseable or when
line_items is absent, in both cases before any network call; a missing
destination identifier does not make it fail, the order number falling back
to ORD followed by the id. -/
theorem transform_failure_policy :
    ∀ (order : ShopifyOrder) (d : CalDate) (l : List SLineItem),
      (order.created_at = some d → order.line_items = some l →
        transformShopifyOrder order = .ok (transformOk order d l))
      ∧ (order.created_at = some d → order.line_items = none →
        transformShopifyOrder order =
          .error (.typeError "Cannot read properties of undefined (reading 'map')"))
      ∧ (order.created_at = none →
        transformShopifyOrder order = .error (.rangeError "Invalid time value"))
      ∧ (order.name = none →
        (transformOk order d l).Order.Header.OrderNumber = "ORD" ++ jsNumStr order.id) := by
  intro order d l
  refine ⟨?_, ?_, ?_, ?_⟩
  · intro h1 h2; simp [transformShopifyOrder, h1, h2]
  · intro h1 h2; simp [transformShopifyOrder, h1, h2]
  · intro h1; simp [transformShopifyOrder, h1]
  · intro h3; simp [transformOk, jsOr, h3]

/-- Witness for the amended C7: an order with no optional fields at all still
transforms, and its order number falls back to ORDundefined when both name
and id are absent. -/
theorem transform_failure_policy_witness :
    transformShopifyOrder { created_at := some ⟨2024, 1, 2⟩, line_items := some [] } =
      .ok (transformOk { created_at := some ⟨2024, 1, 2⟩, line_items := some [] } ⟨2024, 1, 2⟩ [])
    ∧ (transformOk { created_at := some ⟨2024, 1, 2⟩, line_items := some [] }
        ⟨2024, 1, 2⟩ []).Order.Header.OrderNumber = "ORD" ++ jsNumStr none :=
  ⟨(transform_failure_policy { created_at := some ⟨2024, 1, 2⟩, line_items := some [] }
      ⟨2024, 1, 2⟩ []).1 rfl rfl,
   (transform_failure_policy { created_at := some ⟨2024, 1, 2⟩, line_items := some [] }
      ⟨2024, 1, 2⟩ []).2.2.2 rfl⟩

/-- Claim C8: for a source order with N line items the transform numbers
them exactly 1..N in transformation order, and any second run — on the same
order or any order with the same number of line items, whatever its item
identifiers — produces the identical sequence. -/
theorem transform_line_numbers_contiguous :
    ∀ (o : ShopifyOrder) (d : CalDate) (l : List SLineItem),
      o.created_at = some d → o.line_items = some l →
      ∃ r, transformShopifyOrder o = .ok r
        ∧ r.Order.Items.Item.map ERPItem.LineNumber = List.range' 1 l.length
        ∧ (∀ (o2 : ShopifyOrder) (d2 : CalDate) (l2 : List SLineItem) (r2 : OrderMsg),
            o2.created_at = some d2 → o2.line_items = some l2 →
            transformShopifyOrder o2 = .ok r2 → l2.length = l.length →
            r2.Order.Items.Item.map ERPItem.LineNumber =
              r.Order.Items.Item.map ERPItem.LineNumber) := by
  intro o d l h1 h2
  have hok : transformShopifyOrder o = .ok (transformOk o d l) := by
    simp [transformShopifyOrder, h1, h2]
  have hitems : (transformOk o d l).Order.Items.Item = transformItemsFrom 1 l := by
    simp [transformOk]
  refine ⟨transformOk o d l, hok, ?_, ?_⟩
  · rw [hitems, transformItemsFrom_map_lineNumber]
  · intro o2 d2 l2 r2 g1 g2 g3 glen
    have hok2 : transformShopifyOrder o2 = .ok (transformOk o2 d2 l2) := by
      simp [transformShopifyOrder, g1, g2]
    have hr2 : r2 = transformOk o2 d2 l2 := by
      rw [hok2] at g3
      exact (Except.ok.injEq _ _ ▸ g3.symm)
    have hitems2 : (transformOk o2 d2 l2).Order.Items.Item = transformItemsFrom 1 l2 := by
      simp [transformOk]
    rw [hr2, hitems, hitems2, transformItemsFrom_map_lineNumber,
      transformItemsFrom_map_lineNumber, glen]

/-- Witness for C8: two line items with gapped, out-of-order identifiers get
line numbers exactly [1, 2]. -/
theorem transform_line_numbers_contiguous_witness :
    ∃ r, transformShopifyOrder
          { created_at := some ⟨2024, 1, 2⟩
          , line_items := some [{ sku := some "Z-900", quantity := 1 }
                               , { variant_id := some 17, quantity := 2 }] } = .ok r
      ∧ r.Order.Items.Item.map ERPItem.LineNumber =
          List.range' 1 ([{ sku := some "Z-900", quantity := 1 }
                         , ({ variant_id := some 17, quantity := 2 } : SLineItem)] : List SLineItem).length
      ∧ (∀ (o2 : ShopifyOrder) (d2 : CalDate) (l2 : List SLineItem) (r2 : OrderMsg),
          o2.created_at = some d2 → o2.line_items = some l2 →
          transformShopifyOrder o2 = .ok r2 →
          l2.length = ([{ sku := some "Z-900", quantity := 1 }
                       , ({ variant_id := some 17, quantity := 2 } : SLineItem)] : List SLineItem).length →
          r2.Order.Items.Item.map ERPItem.LineNumber =
            r.Order.Items.Item.map ERPItem.LineNumber) :=
  transform_line_numbers_contiguous
    { created_at := some ⟨2024, 1, 2⟩
    , line_items := some [{ sku := some "Z-900", quantity := 1 }
                         , { variant_id := some 17, quantity := 2 }] }
    ⟨2024, 1, 2⟩ _ rfl rfl

/-- Counterexample for claim C4: on a response lacking the envelope, the
order parser's error string is "Invalid response format" (capital I), not
the claimed "invalid response format", and the inventory parser leaves its
error field null instead of setting that string at all. -/
theorem parse_malformed_fallback_cex :
    (parseOrderResponse ⟨none⟩).error = some "Invalid response format"
    ∧ (parseOrderResponse ⟨none⟩).error ≠ some "invalid response format"
    ∧ (parseInventoryResponse ⟨none⟩).error = none
    ∧ (parseInventoryResponse ⟨none⟩).error ≠ some "invalid response format" :=
  ⟨rfl, by decide, rfl, by decide⟩

/-- Amended claim C4: each parser is a total function of the well-formed wire
response (never a throw), a present envelope maps Result SUCCESS and only it
to success true, and a response lacking the envelope is normalized to a
success-false result — with error "Invalid response format" in the order and
status parsers, and with the error field left null in the inventory
parser. -/
theorem parsers_normalize_wire_responses :
    ∀ (w : Wire) (env : WireEnvelope),
      (w.Response = some env →
        ((parseOrderResponse w).success = true ↔ env.Result = some "SUCCESS")
        ∧ ((parseStatusResponse w).success = true ↔ env.Result = some "SUCCESS")
        ∧ ((parseInventoryResponse w).success = true ↔ env.Result = some "SUCCESS"))
      ∧ (w.Response = none →
        parseOrderResponse w = { success := false, error := some "Invalid response format" }
        ∧ parseStatusResponse w = { success := false, error := some "Invalid response format" }
        ∧ parseInventoryResponse w =
            { success := false, inventoryByLocation := [], totalItems := 0, error := none }) := by
  intro w env
  constructor
  · intro h
    refine ⟨?_, ?_, ?_⟩
    · simp [parseOrderResponse, h]
    · simp [parseStatusResponse, h]
    · by_cases hr : env.Result = some "SUCCESS"
      · simp [parseInventoryResponse, h, hr]
      · simp [parseInventoryResponse, h, hr]
  · intro h
    exact ⟨by simp [parseOrderResponse, h], by simp [parseStatusResponse, h],
      by simp [parseInventoryResponse, h]⟩

/-- Witness for the amended C4 at a concrete success envelope and a concrete
envelope-less body. -/
theorem parsers_normalize_wire_responses_witness :
    ((parseOrderResponse ⟨some { Result := some "SUCCESS" }⟩).success = true
      ↔ ({ Result := some "SUCCESS" } : WireEnvelope).Result = some "SUCCESS")
    ∧ (parseOrderResponse ⟨none⟩ =
        { success := false, error := some "Invalid response format" }
       ∧ parseStatusResponse ⟨none⟩ =
          { success := false, error := some "Invalid response format" }
       ∧ parseInventoryResponse ⟨none⟩ =
          { success := false, inventoryByLocation := [], totalItems := 0, error := none }) :=
  ⟨((parsers_normalize_wire_responses ⟨some { Result := some "SUCCESS" }⟩
      { Result := some "SUCCESS" }).1 rfl).1,
   (parsers_normalize_wire_responses ⟨none⟩ {}).2 rfl⟩

/-- Claim C9: a successful inventory response normalizes to a uniform
location list — a single-object Inventory becomes a one-element list, an
array maps element-wise in order, and a location with no Items field gets an
empty item list rather than an error. -/
theorem inventory_normalization_uniform :
    ∀ (env : WireEnvelope) (d : WireData) (loc : InvLoc) (ls : List InvLoc),
      env.Result = some "SUCCESS" →
      ((parseInventoryResponse ⟨some env⟩).success = true)
      ∧ (env.Data = some d → d.Inventory = some (.one loc) →
          (parseInventoryResponse ⟨some env⟩).inventoryByLocation = [normalizeLoc loc])
      ∧ (env.Data = some d → d.Inventory = some (.many ls) →
          (parseInventoryResponse ⟨some env⟩).inventoryByLocation = ls.map normalizeLoc)
      ∧ (loc.Items = none → normalizeLoc loc = ⟨loc.Location, []⟩) := by
  intro env d loc ls hr
  refine ⟨?_, ?_, ?_, ?_⟩
  · simp [parseInventoryResponse, hr]
  · intro hd hi; simp [parseInventoryResponse, hr, hd, hi]
  · intro hd hi; simp [parseInventoryResponse, hr, hd, hi]
  · intro hitems; simp [normalizeLoc, normalizeItems, hitems]

/-- Witness for C9: a single-object Inventory with no Items field becomes
exactly one location with an empty item list. -/
theorem inventory_normalization_uniform_witness :
    (parseInventoryResponse ⟨some { Result := some "SUCCESS", Data := some { Inventory := some (.one { Location := some "HO" }) } }⟩).success = true
    ∧ (parseInventoryResponse ⟨some { Result := some "SUCCESS", Data := some { Inventory := some (.one { Location := some "HO" }) } }⟩).inventoryByLocation
        = [normalizeLoc { Location := some "HO" }]
    ∧ normalizeLoc { Location := some "HO" } = ⟨some "HO", []⟩ :=
  ⟨(inventory_normalization_uniform { Result := some "SUCCESS", Data := some { Inventory := some (.one { Location := some "HO" }) } }
      { Inventory := some (.one { Location := some "HO" }) } { Location := some "HO" } [] rfl).1,
   (inventory_normalization_uniform { Result := some "SUCCESS", Data := some { Inventory := some (.one { Location := some "HO" }) } }
      { Inventory := some (.one { Location := some "HO" }) } { Location := some "HO" } [] rfl).2.1
      rfl rfl,
   (inventory_normalization_uniform { Result := some "SUCCESS", Data := some { Inventory := some (.one { Location := some "HO" }) } }
      { Inventory := some (.one { Location := some "HO" }) } { Location := some "HO" } [] rfl).2.2.2
      rfl⟩
